import Mathlib

/-
  Verification of the ATMS-99 training-management application.

  Shallow embedding of the handler logic of the React components into Lean:
  timestamps are modelled as integers (milliseconds), the document store as
  association lists from document ids to records, thrown exceptions as
  Except/Option results, and fire-and-forget effect sequences as explicit
  traces. Each definition is translated from the corresponding TypeScript
  source function.
-/

namespace ATMS

/-- Course status values used across the application
    ("draft" | "active" | "completed" | "cancelled"). -/
inductive CourseStatus
  | draft
  | active
  | completed
  | cancelled
deriving DecidableEq, Repr

/-- Course level values ("beginner" | "intermediate" | "advanced"). -/
inductive CourseLevel
  | beginner
  | intermediate
  | advanced
deriving DecidableEq, Repr

/-- Model of JavaScript Date.setHours(0,0,0,0): truncate a millisecond
    timestamp to the midnight that starts its day. Euclidean remainder
    gives the floor behaviour of the Date API for negative timestamps. -/
def setHoursZero (t : Int) : Int :=
  t - t.emod 86400000

/-- computeStatus from CourseManagement: a course with no trainer is a
    draft; with a trainer it is completed when today (truncated to
    midnight) is strictly after the truncated end date, and active in
    every other case. Translated from the source with the three local
    Date values inlined. -/
def computeStatus (trainerExists : Bool) (now startDate endDate : Int) : CourseStatus :=
  if !trainerExists then .draft
  else if setHoursZero endDate < setHoursZero now then .completed
  else if setHoursZero startDate ≤ setHoursZero now ∧ setHoursZero now ≤ setHoursZero endDate then
    .active
  else .active

/-- C1: computeStatus returns draft exactly when no trainer is assigned;
    with a trainer it returns completed precisely when today truncated to
    midnight is strictly after the midnight-truncated end date, and active
    in every other case, in particular when today is strictly before the
    truncated start date. -/
theorem computeStatus_spec (now startDate endDate : Int) :
    (∀ tr : Bool, computeStatus tr now startDate endDate = .draft ↔ tr = false) ∧
    (computeStatus true now startDate endDate = .completed ↔
      setHoursZero endDate < setHoursZero now) ∧
    (setHoursZero now ≤ setHoursZero endDate →
      computeStatus true now startDate endDate = .active) ∧
    (setHoursZero now < setHoursZero startDate →
      setHoursZero now ≤ setHoursZero endDate →
      computeStatus true now startDate endDate = .active) := by
  refine ⟨?_, ?_, ?_, ?_⟩
  · intro tr
    cases tr <;> simp only [computeStatus, Bool.not_true, Bool.not_false] <;>
      split <;> simp_all <;> split <;> simp_all
  · simp only [computeStatus, Bool.not_true]
    constructor
    · intro h
      by_contra hc
      rw [if_neg (by simp), if_neg hc] at h
      split at h <;> simp_all
    · intro h
      rw [if_neg (by simp), if_pos h]
  · intro h
    simp only [computeStatus, Bool.not_true]
    rw [if_neg (by simp), if_neg (by omega)]
    split <;> rfl
  · intro h h2
    simp only [computeStatus, Bool.not_true]
    rw [if_neg (by simp), if_neg (by omega)]
    split <;> rfl

/-- Witness for C1 at concrete dates: today = day 0, start = end = day 1,
    a trainer assigned: today is strictly before the start, the course is
    active. -/
theorem computeStatus_spec_witness :
    setHoursZero 0 < setHoursZero 86400000 ∧
    setHoursZero 0 ≤ setHoursZero 86400000 ∧
    computeStatus true 0 86400000 86400000 = .active := by
  refine ⟨by decide, by decide, ?_⟩
  exact (computeStatus_spec 0 86400000 86400000).2.2.2 (by decide) (by decide)

/-- One denormalized course record inside an enrollment document, as in the
    EnrollmentCourse interface of useCourses. Optional TypeScript fields are
    Option values; Date fields are millisecond timestamps. -/
structure EnrollmentCourse where
  courseId : String
  enrolledAt : Int
  title : String
  instructorId : Option String
  instructorName : Option String
  hours : Option Int
  level : Option CourseLevel
  category : Option String
  startDate : Option Int
  endDate : Option Int
  materials : Option (List String)
  status : CourseStatus
deriving DecidableEq, Repr

/-- An enrollment document: one per user, holding the denormalized course
    records. -/
structure Enrollment where
  userId : String
  courses : List EnrollmentCourse
deriving DecidableEq, Repr

/-- The auto-complete condition of the useCourses enrollment listener:
    c.endDate is present, strictly earlier than now, and the record is
    still active. -/
def courseNeedsUpdate (now : Int) (c : EnrollmentCourse) : Bool :=
  match c.endDate with
  | some e => decide (e < now) && decide (c.status = .active)
  | none => false

/-- The per-record rewrite of the listener: records meeting the condition
    get status completed, all other records pass through. -/
def autoComplete (now : Int) (c : EnrollmentCourse) : EnrollmentCourse :=
  if courseNeedsUpdate now c then { c with status := .completed } else c

/-- The enrollment onSnapshot body of useCourses after date conversion:
    map the rewrite over the course records and report whether any record
    changed (needsUpdate), which is exactly when the write-back to the
    enrollments document is issued. -/
def processEnrollmentSnapshot (now : Int) (courses : List EnrollmentCourse) :
    List EnrollmentCourse × Bool :=
  (courses.map (autoComplete now), courses.any (courseNeedsUpdate now))

theorem autoComplete_frame (now : Int) (c : EnrollmentCourse) :
    (autoComplete now c).courseId = c.courseId ∧
    (autoComplete now c).enrolledAt = c.enrolledAt ∧
    (autoComplete now c).title = c.title ∧
    (autoComplete now c).instructorId = c.instructorId ∧
    (autoComplete now c).instructorName = c.instructorName ∧
    (autoComplete now c).hours = c.hours ∧
    (autoComplete now c).level = c.level ∧
    (autoComplete now c).category = c.category ∧
    (autoComplete now c).startDate = c.startDate ∧
    (autoComplete now c).endDate = c.endDate ∧
    (autoComplete now c).materials = c.materials ∧
    (autoComplete now c).status =
      (if courseNeedsUpdate now c then .completed else c.status) := by
  unfold autoComplete
  split <;> simp

theorem autoComplete_ne_iff (now : Int) (c : EnrollmentCourse) :
    autoComplete now c ≠ c ↔ courseNeedsUpdate now c = true := by
  unfold autoComplete
  constructor
  · intro h
    by_contra hc
    rw [if_neg hc] at h
    exact h rfl
  · intro h
    rw [if_pos h]
    intro heq
    have hs := congrArg EnrollmentCourse.status heq
    simp at hs
    unfold courseNeedsUpdate at h
    cases he : c.endDate with
    | none => rw [he] at h; simp at h
    | some e =>
      rw [he] at h
      simp at h
      rw [h.2] at hs
      exact CourseStatus.noConfusion hs

/-- C2: after the enrollment listener processes a snapshot, no resulting
    course record is active with an endDate strictly before now; each
    record keeps every field except status, which is rewritten to
    completed exactly when the record met the condition; and the
    write-back flag is set if and only if at least one record changed. -/
theorem enrollment_listener_spec (now : Int) (cs : List EnrollmentCourse) :
    (∀ c ∈ (processEnrollmentSnapshot now cs).1,
      ∀ e, c.endDate = some e → e < now → c.status ≠ .active) ∧
    (processEnrollmentSnapshot now cs).1.length = cs.length ∧
    (∀ i, (processEnrollmentSnapshot now cs).1.get? i =
      (cs.get? i).map (autoComplete now)) ∧
    ((processEnrollmentSnapshot now cs).2 = true ↔
      ∃ c ∈ cs, autoComplete now c ≠ c) := by
  refine ⟨?_, ?_, ?_, ?_⟩
  · intro c hc e he hlt hst
    simp only [processEnrollmentSnapshot, List.mem_map] at hc
    obtain ⟨c0, _, hmap⟩ := hc
    have hframe := autoComplete_frame now c0
    have hend : c0.endDate = some e := by
      rw [← hframe.2.2.2.2.2.2.2.2.2.1, hmap, he]
    have hstat := hframe.2.2.2.2.2.2.2.2.2.2.2
    rw [hmap, hst] at hstat
    by_cases hneed : courseNeedsUpdate now c0 = true
    · rw [if_pos hneed] at hstat
      exact CourseStatus.noConfusion hstat
    · rw [if_neg hneed] at hstat
      unfold courseNeedsUpdate at hneed
      rw [hend] at hneed
      simp at hneed
      exact absurd (hneed hlt) (by rw [← hstat]; exact fun h => h rfl)
  · simp [processEnrollmentSnapshot]
  · intro i
    simp [processEnrollmentSnapshot, List.get?_map]
  · simp only [processEnrollmentSnapshot, List.any_eq_true]
    constructor
    · rintro ⟨c, hc, hneed⟩
      exact ⟨c, hc, (autoComplete_ne_iff now c).mpr hneed⟩
    · rintro ⟨c, hc, hne⟩
      exact ⟨c, hc, (autoComplete_ne_iff now c).mp hne⟩

/-- A concrete enrollment record used to instantiate the listener theorem:
    still active although its end date (5) is already in the past at
    now = 10. -/
def sampleEnrollmentCourse : EnrollmentCourse :=
  ⟨"c1", 0, "Intro", none, none, none, none, none, none, some 5, none, .active⟩

/-- Witness for C2 at a concrete snapshot: the processed record is no
    longer active and the write-back flag is set. -/
theorem enrollment_listener_spec_witness :
    (autoComplete 10 sampleEnrollmentCourse).status ≠ CourseStatus.active ∧
    (processEnrollmentSnapshot 10 [sampleEnrollmentCourse]).2 = true := by
  constructor
  · exact (enrollment_listener_spec 10 [sampleEnrollmentCourse]).1
      (autoComplete 10 sampleEnrollmentCourse)
      (by simp [processEnrollmentSnapshot]) 5 (by decide) (by decide)
  · exact (enrollment_listener_spec 10 [sampleEnrollmentCourse]).2.2.2.mpr
      ⟨sampleEnrollmentCourse, by simp, by decide⟩

/-- A course document as loaded into the course list of useCourses /
    CourseManagement. Fields follow the Course interface; instructorId is
    the string written by CourseManagement (getInstructorUid). -/
structure Course where
  id : String
  title : String
  instructorId : String
  instructorName : Option String
  hours : Option Int
  duration : Option Int
  level : Option CourseLevel
  category : Option String
  startDate : Option Int
  endDate : Option Int
  students : List String
  materials : Option (List String)
  status : CourseStatus
deriving DecidableEq, Repr

/-- The newEnrollment object built inside enrollCourse: a denormalized
    copy of the course fields at enrollment time, with enrolledAt = now
    and materials defaulting to the empty list. -/
def newEnrollmentRecord (courseId : String) (now : Int) (course : Course) :
    EnrollmentCourse :=
  { courseId := courseId
    enrolledAt := now
    title := course.title
    instructorId := some course.instructorId
    instructorName := course.instructorName
    hours := course.hours
    level := course.level
    category := course.category
    startDate := course.startDate
    endDate := course.endDate
    materials := some (course.materials.getD [])
    status := course.status }

/-- enrollCourse from useCourses. A thrown Error is an Except.error
    result and means nothing was written; an Except.ok result is the
    enrollment document as written (updateDoc of the courses array when
    the document exists, setDoc of a fresh document otherwise). The
    currentUser argument is the uid of the logged-in user, if any, and
    now models the new Date() of enrolledAt. -/
def enrollCourse (currentUser : Option String) (enrolledCourseIds : List String)
    (allCourses : List Course) (existing : Option Enrollment) (now : Int)
    (courseId : String) : Except String Enrollment :=
  match currentUser with
  | none => .error "User not logged in"
  | some uid =>
    if courseId ∈ enrolledCourseIds then .error "Already enrolled!"
    else
      match allCourses.find? (fun c => c.id == courseId) with
      | none => .error "Course not found"
      | some course =>
        let newEnrollment := newEnrollmentRecord courseId now course
        match existing with
        | some data => .ok { data with courses := data.courses ++ [newEnrollment] }
        | none => .ok { userId := uid, courses := [newEnrollment] }

/-- The course records already stored for the user, empty when no
    enrollment document exists. -/
def priorCourses (existing : Option Enrollment) : List EnrollmentCourse :=
  match existing with
  | some data => data.courses
  | none => []

/-- C3: for a logged-in user not already enrolled and a course present in
    the loaded list, enrollCourse appends exactly one record copying the
    course fields (materials defaulting to the empty list) with
    enrolledAt = now, preserving all previously enrolled records; it
    errors without writing when the user is not logged in, already
    enrolled, or the course is not found. -/
theorem enrollCourse_spec (uid : String) (enrolledIds : List String)
    (allCourses : List Course) (existing : Option Enrollment) (now : Int)
    (courseId : String) :
    (enrollCourse none enrolledIds allCourses existing now courseId =
      .error "User not logged in") ∧
    (courseId ∈ enrolledIds →
      enrollCourse (some uid) enrolledIds allCourses existing now courseId =
        .error "Already enrolled!") ∧
    (courseId ∉ enrolledIds →
      allCourses.find? (fun c => c.id == courseId) = none →
      enrollCourse (some uid) enrolledIds allCourses existing now courseId =
        .error "Course not found") ∧
    (∀ course, courseId ∉ enrolledIds →
      allCourses.find? (fun c => c.id == courseId) = some course →
      ∃ e,
        enrollCourse (some uid) enrolledIds allCourses existing now courseId = .ok e ∧
        e.courses = priorCourses existing ++ [newEnrollmentRecord courseId now course] ∧
        (newEnrollmentRecord courseId now course).courseId = courseId ∧
        (newEnrollmentRecord courseId now course).enrolledAt = now ∧
        (newEnrollmentRecord courseId now course).title = course.title ∧
        (newEnrollmentRecord courseId now course).instructorId = some course.instructorId ∧
        (newEnrollmentRecord courseId now course).instructorName = course.instructorName ∧
        (newEnrollmentRecord courseId now course).hours = course.hours ∧
        (newEnrollmentRecord courseId now course).level = course.level ∧
        (newEnrollmentRecord courseId now course).category = course.category ∧
        (newEnrollmentRecord courseId now course).startDate = course.startDate ∧
        (newEnrollmentRecord courseId now course).endDate = course.endDate ∧
        (newEnrollmentRecord courseId now course).materials =
          some (course.materials.getD []) ∧
        (newEnrollmentRecord courseId now course).status = course.status) := by
  refine ⟨rfl, ?_, ?_, ?_⟩
  · intro h
    simp [enrollCourse, h]
  · intro hmem h
    simp [enrollCourse, hmem, h]
  · intro course hmem hfind
    cases existing with
    | none =>
      refine ⟨⟨uid, [newEnrollmentRecord courseId now course]⟩, ?_,
        by simp [priorCourses], rfl, rfl, rfl, rfl, rfl, rfl, rfl, rfl, rfl, rfl,
        rfl, rfl⟩
      simp only [enrollCourse, if_neg hmem, hfind]
    | some data =>
      refine ⟨⟨data.userId, data.courses ++ [newEnrollmentRecord courseId now course]⟩,
        ?_, by simp [priorCourses], rfl, rfl, rfl, rfl, rfl, rfl, rfl, rfl, rfl, rfl,
        rfl, rfl⟩
      simp only [enrollCourse, if_neg hmem, hfind]

/-- A concrete course for the C3 witness. -/
def sampleCourse : Course :=
  ⟨"c7", "Networks", "t1", some "Abebe", some 40, none, some .beginner,
    some "IT", some 100, some 200, [], none, .active⟩

/-- Witness for C3: enrolling a fresh user in sampleCourse from the
    singleton course list succeeds and the error branches fire on the
    matching inputs. -/
theorem enrollCourse_spec_witness :
    (enrollCourse none [] [sampleCourse] none 50 "c7" =
      .error "User not logged in") ∧
    (enrollCourse (some "u1") ["c7"] [sampleCourse] none 50 "c7" =
      .error "Already enrolled!") ∧
    (enrollCourse (some "u1") [] [] none 50 "missing" =
      .error "Course not found") ∧
    ∃ e,
      enrollCourse (some "u1") [] [sampleCourse] none 50 "c7" = .ok e ∧
      e.courses = priorCourses none ++ [newEnrollmentRecord "c7" 50 sampleCourse] ∧
      (newEnrollmentRecord "c7" 50 sampleCourse).enrolledAt = 50 ∧
      (newEnrollmentRecord "c7" 50 sampleCourse).title = sampleCourse.title ∧
      (newEnrollmentRecord "c7" 50 sampleCourse).status = sampleCourse.status := by
  refine ⟨(enrollCourse_spec "u1" [] [sampleCourse] none 50 "c7").1, ?_, ?_, ?_⟩
  · exact (enrollCourse_spec "u1" ["c7"] [sampleCourse] none 50 "c7").2.1
      (by decide)
  · exact (enrollCourse_spec "u1" [] [] none 50 "missing").2.2.1 (by decide)
      (by decide)
  · obtain ⟨e, h1, h2, _, h4, h5, hrest⟩ :=
      (enrollCourse_spec "u1" [] [sampleCourse] none 50 "c7").2.2.2
        sampleCourse (by decide) (by decide)
    exact ⟨e, h1, h2, h4, h5, hrest.2.2.2.2.2.2.2.2⟩

/-- Role values of the UserManagement User interface. -/
inductive Role
  | trainee
  | trainer
  | admin
  | pending
deriving DecidableEq, Repr

/-- A stored user document in the users collection (fields read and
    written by UserManagement). -/
structure UserDoc where
  uid : String
  displayName : String
  email : String
  role : Role
  createdAt : Int
  isSuperAdmin : Bool
deriving DecidableEq, Repr

/-- The editingUser state of UserManagement: the loaded user being edited,
    with its document id. -/
structure EditingUser where
  id : String
  uid : String
  displayName : String
  email : String
  role : Role
deriving DecidableEq, Repr

/-- The updateDoc payload of handleSaveEdit applied to a stored document:
    exactly displayName, email and role are replaced. -/
def updateUserFields (eu : EditingUser) (d : UserDoc) : UserDoc :=
  { d with displayName := eu.displayName, email := eu.email, role := eu.role }

/-- handleSaveEdit from UserManagement, acting on the users collection
    modelled as an association list from document ids to documents.
    currentUid is the uid of the logged-in caller, if any; the guard
    editingUser.uid strictly-differs-from currentUser uid holds in
    particular when there is no current user. When the guard fires only
    an alert is shown and the store is returned unchanged. -/
def handleSaveEdit (isSuperAdmin : Bool) (currentUid : Option String)
    (eu : EditingUser) (store : List (String × UserDoc)) :
    List (String × UserDoc) :=
  if eu.role = .admin ∧ currentUid ≠ some eu.uid ∧ isSuperAdmin = false then store
  else store.map fun p => if p.1 = eu.id then (p.1, updateUserFields eu p.2) else p

/-- C4: a caller who is not a super admin cannot edit another admin: in
    that case handleSaveEdit leaves every user document unchanged; in all
    other cases it rewrites exactly the displayName, email and role fields
    of the documents stored under the edited id and leaves every other
    document unchanged. -/
theorem handleSaveEdit_spec (isSuperAdmin : Bool) (currentUid : Option String)
    (eu : EditingUser) (store : List (String × UserDoc)) :
    (eu.role = .admin → currentUid ≠ some eu.uid → isSuperAdmin = false →
      handleSaveEdit isSuperAdmin currentUid eu store = store) ∧
    (¬(eu.role = .admin ∧ currentUid ≠ some eu.uid ∧ isSuperAdmin = false) →
      (∀ i, (handleSaveEdit isSuperAdmin currentUid eu store).get? i =
        (store.get? i).map fun p =>
          if p.1 = eu.id then (p.1, updateUserFields eu p.2) else p) ∧
      ∀ d : UserDoc,
        (updateUserFields eu d).uid = d.uid ∧
        (updateUserFields eu d).createdAt = d.createdAt ∧
        (updateUserFields eu d).isSuperAdmin = d.isSuperAdmin ∧
        (updateUserFields eu d).displayName = eu.displayName ∧
        (updateUserFields eu d).email = eu.email ∧
        (updateUserFields eu d).role = eu.role) := by
  constructor
  · intro h1 h2 h3
    simp [handleSaveEdit, h1, h2, h3]
  · intro hguard
    constructor
    · intro i
      rw [handleSaveEdit, if_neg hguard]
      simp [List.get?_map]
    · intro d
      simp [updateUserFields]

/-- A concrete user store for the UserManagement witnesses. -/
def sampleUserStore : List (String × UserDoc) :=
  [("d1", ⟨"u1", "Alice", "a.at.x", .admin, 0, false⟩),
   ("d2", ⟨"u2", "Bede", "b.at.x", .trainee, 0, false⟩)]

/-- Witness for C4: a non-super-admin caller u2 cannot edit the admin
    document of u1 (store unchanged), and editing the trainee document of
    u2 as u2 rewrites exactly the three fields. -/
theorem handleSaveEdit_spec_witness :
    handleSaveEdit false (some "u2") ⟨"d1", "u1", "Mallory", "m.at.x", .admin⟩
      sampleUserStore = sampleUserStore ∧
    (handleSaveEdit false (some "u2") ⟨"d2", "u2", "Bede B", "b2.at.x", .trainee⟩
      sampleUserStore).get? 1 =
      some ("d2", ⟨"u2", "Bede B", "b2.at.x", .trainee, 0, false⟩) := by
  constructor
  · exact (handleSaveEdit_spec false (some "u2")
      ⟨"d1", "u1", "Mallory", "m.at.x", .admin⟩ sampleUserStore).1
      rfl (by decide) rfl
  · have h := ((handleSaveEdit_spec false (some "u2")
      ⟨"d2", "u2", "Bede B", "b2.at.x", .trainee⟩ sampleUserStore).2
      (by decide)).1 1
    rw [h]
    decide

/-- The document written to the users collection by handleAddUser. -/
structure NewUserDoc where
  uid : String
  displayName : String
  email : String
  role : Role
  createdAt : Int
  lastLogin : Int
deriving DecidableEq, Repr

/-- The document written to the pendingUsers collection by handleAddUser,
    carrying the role selected in the form. -/
structure PendingUserDoc where
  uid : String
  displayName : String
  email : String
  role : Role
deriving DecidableEq, Repr

/-- handleAddUser from UserManagement as a document-producing function:
    none models an early return with only an alert (no document written),
    some gives the pair of documents written to users and pendingUsers.
    existingEmails are the email values already present in the users
    collection (the duplicate query); uid is the id minted by the auth
    backend; now models new Date(). -/
def handleAddUser (displayName email password : String) (requestedRole : Role)
    (existingEmails : List String) (isSuperAdmin : Bool) (uid : String)
    (now : Int) : Option (NewUserDoc × PendingUserDoc) :=
  if displayName = "" ∨ email = "" ∨ password = "" then none
  else if email ∈ existingEmails then none
  else if requestedRole = .admin ∧ isSuperAdmin = false then none
  else
    some ({ uid := uid, displayName := displayName, email := email,
            role := .pending, createdAt := now, lastLogin := now },
          { uid := uid, displayName := displayName, email := email,
            role := requestedRole })

/-- C8: every user document created through handleAddUser carries role
    pending regardless of the requested role, which is recorded only in
    the pendingUsers document; no documents are created when a required
    field is empty, the email already exists, or admin is requested by a
    non-super-admin caller. -/
theorem handleAddUser_spec (displayName email password : String)
    (requestedRole : Role) (existingEmails : List String) (isSuperAdmin : Bool)
    (uid : String) (now : Int) :
    (∀ docs, handleAddUser displayName email password requestedRole
        existingEmails isSuperAdmin uid now = some docs →
      docs.1.role = .pending ∧
      docs.2.role = requestedRole ∧
      docs.1.uid = uid ∧ docs.1.displayName = displayName ∧
      docs.1.email = email ∧
      docs.2.uid = uid ∧ docs.2.displayName = displayName ∧
      docs.2.email = email) ∧
    (displayName = "" ∨ email = "" ∨ password = "" →
      handleAddUser displayName email password requestedRole existingEmails
        isSuperAdmin uid now = none) ∧
    (email ∈ existingEmails →
      handleAddUser displayName email password requestedRole existingEmails
        isSuperAdmin uid now = none) ∧
    (requestedRole = .admin → isSuperAdmin = false →
      handleAddUser displayName email password requestedRole existingEmails
        isSuperAdmin uid now = none) := by
  refine ⟨?_, ?_, ?_, ?_⟩
  · intro docs h
    rw [handleAddUser] at h
    split at h
    · exact Option.noConfusion h
    · split at h
      · exact Option.noConfusion h
      · split at h
        · exact Option.noConfusion h
        · injection h with h
          subst h
          exact ⟨rfl, rfl, rfl, rfl, rfl, rfl, rfl, rfl⟩
  · intro h
    simp [handleAddUser, h]
  · intro h
    simp [handleAddUser, h]
  · intro h1 h2
    simp [handleAddUser, h1, h2]

/-- Witness for C8: adding a user with requested role trainer writes a
    users document with role pending and a pendingUsers document with role
    trainer, and each guard blocks on a concrete input. -/
theorem handleAddUser_spec_witness :
    (⟨"u9", "Chala", "c.at.x", .pending, 7, 7⟩ : NewUserDoc).role = .pending ∧
    (⟨"u9", "Chala", "c.at.x", .trainer⟩ : PendingUserDoc).role = .trainer ∧
    handleAddUser "" "c.at.x" "pw" .trainer [] false "u9" 7 = none ∧
    handleAddUser "Chala" "c.at.x" "pw" .trainer ["c.at.x"] false "u9" 7 = none ∧
    handleAddUser "Chala" "c.at.x" "pw" .admin [] false "u9" 7 = none := by
  have h := (handleAddUser_spec "Chala" "c.at.x" "pw" .trainer [] false "u9" 7).1
    (⟨"u9", "Chala", "c.at.x", .pending, 7, 7⟩, ⟨"u9", "Chala", "c.at.x", .trainer⟩)
    (by decide)
  refine ⟨h.1, h.2.1 ▸ rfl, ?_, ?_, ?_⟩
  · exact (handleAddUser_spec "" "c.at.x" "pw" .trainer [] false "u9" 7).2.1
      (Or.inl rfl)
  · exact (handleAddUser_spec "Chala" "c.at.x" "pw" .trainer ["c.at.x"] false
      "u9" 7).2.2.1 (by decide)
  · exact (handleAddUser_spec "Chala" "c.at.x" "pw" .admin [] false "u9" 7).2.2.2
      rfl rfl

/-- The user row passed to handleDeleteUser: its document id is optional
    in the UserManagement User interface. -/
structure TargetUser where
  id : Option String
  uid : String
  displayName : String
  role : Role
  isSuperAdmin : Bool
deriving DecidableEq, Repr

/-- handleDeleteUser from UserManagement: returns the users collection
    after the call together with a flag recording whether a delete was
    issued. confirmed models the window.confirm answer; the self-deletion
    guard compares user.uid with the optional current uid as in the
    source (it never fires when there is no current user). -/
def handleDeleteUser (confirmed : Bool) (isSuperAdmin : Bool)
    (currentUid : Option String) (user : TargetUser)
    (store : List (String × UserDoc)) : List (String × UserDoc) × Bool :=
  if confirmed = false then (store, false)
  else if user.isSuperAdmin then (store, false)
  else if (user.role = .admin ∧ isSuperAdmin = false) ∨ currentUid = some user.uid then
    (store, false)
  else
    match user.id with
    | none => (store, false)
    | some docId => (store.filter fun p => p.1 != docId, true)

/-- C9: handleDeleteUser never deletes when the target is the super
    admin, when the target is an admin and the caller is not a super
    admin, or when the target is the caller: the store is unchanged in
    each case; a delete is issued only after confirmation, outside all
    three cases, and with a document id present. -/
theorem handleDeleteUser_spec (confirmed isSuperAdmin : Bool)
    (currentUid : Option String) (user : TargetUser)
    (store : List (String × UserDoc)) :
    (user.isSuperAdmin = true →
      handleDeleteUser confirmed isSuperAdmin currentUid user store = (store, false)) ∧
    (user.role = .admin → isSuperAdmin = false →
      handleDeleteUser confirmed isSuperAdmin currentUid user store = (store, false)) ∧
    (currentUid = some user.uid →
      handleDeleteUser confirmed isSuperAdmin currentUid user store = (store, false)) ∧
    (confirmed = false →
      handleDeleteUser confirmed isSuperAdmin currentUid user store = (store, false)) ∧
    ((handleDeleteUser confirmed isSuperAdmin currentUid user store).2 = true →
      confirmed = true ∧ user.isSuperAdmin = false ∧
      ¬(user.role = .admin ∧ isSuperAdmin = false) ∧
      currentUid ≠ some user.uid ∧
      ∃ docId, user.id = some docId ∧
        handleDeleteUser confirmed isSuperAdmin currentUid user store =
          (store.filter fun p => p.1 != docId, true)) := by
  refine ⟨?_, ?_, ?_, ?_, ?_⟩
  · intro h
    simp [handleDeleteUser, h]
  · intro h1 h2
    simp [handleDeleteUser, h1, h2]
  · intro h
    simp [handleDeleteUser, h]
  · intro h
    simp [handleDeleteUser, h]
  · intro h
    rw [handleDeleteUser] at h ⊢
    split at h
    · simp at h
    · rename_i hconf
      split at h
      · simp at h
      · rename_i hsup
        split at h
        · simp at h
        · rename_i hguard
          cases hid : user.id with
          | none => rw [hid] at h; simp at h
          | some docId =>
            rw [hid] at h
            refine ⟨by revert hconf; cases confirmed <;> simp,
              by revert hsup; cases user.isSuperAdmin <;> simp,
              fun hc => hguard (Or.inl hc), fun hc => hguard (Or.inr hc),
              docId, rfl, ?_⟩
            rw [if_neg hconf, if_neg hsup, if_neg hguard]

/-- Witness for C9: concrete blocked calls (super-admin target, admin
    target with non-super caller, self target, unconfirmed) and one
    concrete issued delete. -/
theorem handleDeleteUser_spec_witness :
    handleDeleteUser true false (some "u2") ⟨some "d1", "u1", "Alice", .admin, true⟩
      sampleUserStore = (sampleUserStore, false) ∧
    handleDeleteUser true false (some "u2") ⟨some "d1", "u1", "Alice", .admin, false⟩
      sampleUserStore = (sampleUserStore, false) ∧
    handleDeleteUser true true (some "u2") ⟨some "d2", "u2", "Bede", .trainee, false⟩
      sampleUserStore = (sampleUserStore, false) ∧
    handleDeleteUser false true (some "u1") ⟨some "d2", "u2", "Bede", .trainee, false⟩
      sampleUserStore = (sampleUserStore, false) ∧
    (handleDeleteUser true true (some "u1") ⟨some "d2", "u2", "Bede", .trainee, false⟩
      sampleUserStore).2 = true ∧
    handleDeleteUser true true (some "u1") ⟨some "d2", "u2", "Bede", .trainee, false⟩
      sampleUserStore =
      (sampleUserStore.filter fun p => p.1 != "d2", true) := by
  refine ⟨?_, ?_, ?_, ?_, ?_, ?_⟩
  · exact (handleDeleteUser_spec true false (some "u2")
      ⟨some "d1", "u1", "Alice", .admin, true⟩ sampleUserStore).1 rfl
  · exact (handleDeleteUser_spec true false (some "u2")
      ⟨some "d1", "u1", "Alice", .admin, false⟩ sampleUserStore).2.1 rfl rfl
  · exact (handleDeleteUser_spec true true (some "u2")
      ⟨some "d2", "u2", "Bede", .trainee, false⟩ sampleUserStore).2.2.1 rfl
  · exact (handleDeleteUser_spec false true (some "u1")
      ⟨some "d2", "u2", "Bede", .trainee, false⟩ sampleUserStore).2.2.2.1 rfl
  · decide
  · obtain ⟨_, _, _, _, docId, hid, heq⟩ :=
      (handleDeleteUser_spec true true (some "u1")
        ⟨some "d2", "u2", "Bede", .trainee, false⟩ sampleUserStore).2.2.2.2
        (by decide)
    injection hid with hid
    rw [heq, ← hid]

/-- Sender tag of a feedback message ("trainee" | "trainer"). -/
inductive Sender
  | trainee
  | trainer
deriving DecidableEq, Repr

/-- A feedback message as loaded by TrainerFeedback. -/
structure FeedbackMessage where
  id : String
  traineeId : String
  message : String
  timestamp : Option Int
  sender : Sender
deriving DecidableEq, Repr

/-- A document of the hiddenMessages collection: exactly a trainerId and a
    messageId, as written by handleHideMessage. -/
structure HiddenMessageDoc where
  trainerId : String
  messageId : String
deriving DecidableEq, Repr

/-- The state touched by handleHideMessage: the feedbacks collection, the
    hiddenMessages collection, the local hidden-id list of the trainer and
    the local message list. -/
structure TrainerFeedbackState where
  feedbacks : List FeedbackMessage
  hiddenMessages : List HiddenMessageDoc
  hiddenMessageIds : List String
  messages : List FeedbackMessage
deriving DecidableEq, Repr

/-- handleHideMessage from TrainerFeedback: after a confirmed prompt, a
    trainer message is deleted from the feedbacks collection, while a
    trainee message leaves feedbacks untouched and instead adds a
    hiddenMessages document and extends the local hidden list; both
    branches drop the message from the local message list. An unconfirmed
    prompt changes nothing. -/
def handleHideMessage (confirmed : Bool) (trainerId : String)
    (msg : FeedbackMessage) (st : TrainerFeedbackState) : TrainerFeedbackState :=
  if confirmed = false then st
  else
    let st' :=
      if msg.sender = .trainer then
        { st with feedbacks := st.feedbacks.filter fun m => m.id != msg.id }
      else
        { st with
            hiddenMessages := st.hiddenMessages ++ [⟨trainerId, msg.id⟩],
            hiddenMessageIds := st.hiddenMessageIds ++ [msg.id] }
    { st' with messages := st'.messages.filter fun m => m.id != msg.id }

/-- C5: deleting a confirmed message behaves as hide-vs-delete depending
    on the sender: a trainer message is removed from the feedbacks
    collection (hiddenMessages and the hidden list untouched); a trainee
    message leaves feedbacks unchanged and appends exactly
    (trainerId, messageId) to hiddenMessages and the message id to the
    local hidden list. -/
theorem handleHideMessage_spec (trainerId : String) (msg : FeedbackMessage)
    (st : TrainerFeedbackState) :
    (msg.sender = .trainer →
      (handleHideMessage true trainerId msg st).feedbacks =
        (st.feedbacks.filter fun m => m.id != msg.id) ∧
      (∀ m ∈ (handleHideMessage true trainerId msg st).feedbacks, m.id ≠ msg.id) ∧
      (handleHideMessage true trainerId msg st).hiddenMessages =
        st.hiddenMessages ∧
      (handleHideMessage true trainerId msg st).hiddenMessageIds =
        st.hiddenMessageIds) ∧
    (msg.sender = .trainee →
      (handleHideMessage true trainerId msg st).feedbacks = st.feedbacks ∧
      (handleHideMessage true trainerId msg st).hiddenMessages =
        st.hiddenMessages ++ [⟨trainerId, msg.id⟩] ∧
      (handleHideMessage true trainerId msg st).hiddenMessageIds =
        st.hiddenMessageIds ++ [msg.id]) ∧
    handleHideMessage false trainerId msg st = st := by
  refine ⟨?_, ?_, rfl⟩
  · intro h
    have hfeed : (handleHideMessage true trainerId msg st).feedbacks =
        st.feedbacks.filter fun m => m.id != msg.id := by
      simp [handleHideMessage, h]
    refine ⟨hfeed, ?_, by simp [handleHideMessage, h],
      by simp [handleHideMessage, h]⟩
    intro m hm
    rw [hfeed] at hm
    have := List.of_mem_filter hm
    simpa using this
  · intro h
    have h2 : ¬ msg.sender = Sender.trainer := by
      rw [h]
      exact fun hc => Sender.noConfusion hc
    exact ⟨by simp [handleHideMessage, h2], by simp [handleHideMessage, h2],
      by simp [handleHideMessage, h2]⟩

/-- Witness for C5 on a two-message state: the trainer message t1 is
    deleted from feedbacks, the trainee message m1 is hidden instead. -/
theorem handleHideMessage_spec_witness :
    (handleHideMessage true "tr" ⟨"t1", "u3", "ok", none, .trainer⟩
      ⟨[⟨"t1", "u3", "ok", none, .trainer⟩, ⟨"m1", "u3", "hi", none, .trainee⟩],
        [], [], []⟩).feedbacks = [⟨"m1", "u3", "hi", none, .trainee⟩] ∧
    (handleHideMessage true "tr" ⟨"t1", "u3", "ok", none, .trainer⟩
      ⟨[⟨"t1", "u3", "ok", none, .trainer⟩, ⟨"m1", "u3", "hi", none, .trainee⟩],
        [], [], []⟩).hiddenMessages = [] ∧
    (handleHideMessage true "tr" ⟨"m1", "u3", "hi", none, .trainee⟩
      ⟨[⟨"t1", "u3", "ok", none, .trainer⟩, ⟨"m1", "u3", "hi", none, .trainee⟩],
        [], [], []⟩).feedbacks =
      [⟨"t1", "u3", "ok", none, .trainer⟩, ⟨"m1", "u3", "hi", none, .trainee⟩] ∧
    (handleHideMessage true "tr" ⟨"m1", "u3", "hi", none, .trainee⟩
      ⟨[⟨"t1", "u3", "ok", none, .trainer⟩, ⟨"m1", "u3", "hi", none, .trainee⟩],
        [], [], []⟩).hiddenMessages = [⟨"tr", "m1"⟩] := by
  have hT := (handleHideMessage_spec "tr" ⟨"t1", "u3", "ok", none, .trainer⟩
    ⟨[⟨"t1", "u3", "ok", none, .trainer⟩, ⟨"m1", "u3", "hi", none, .trainee⟩],
      [], [], []⟩).1 rfl
  have hE := (handleHideMessage_spec "tr" ⟨"m1", "u3", "hi", none, .trainee⟩
    ⟨[⟨"t1", "u3", "ok", none, .trainer⟩, ⟨"m1", "u3", "hi", none, .trainee⟩],
      [], [], []⟩).2.1 rfl
  exact ⟨hT.1, hT.2.2.1, hE.1, hE.2.1⟩

/-- One entry of allMenuItems in the Sidebar: an id, a label and an
    optional list of roles that may see it. -/
structure MenuItem where
  id : String
  label : String
  roles : Option (List String)
deriving DecidableEq, Repr

/-- allMenuItems from Sidebar, in declaration order. -/
def allMenuItems : List MenuItem :=
  [⟨"dashboard", "Home", none⟩,
   ⟨"users", "User Management", some ["admin"]⟩,
   ⟨"pending-users", "Pending Users", some ["admin"]⟩,
   ⟨"sessions", "Sessions", some ["admin"]⟩,
   ⟨"courses", "Course Management", some ["admin"]⟩,
   ⟨"grades", "Grades", some ["admin"]⟩,
   ⟨"activities", "Activity Logs", some ["admin"]⟩,
   ⟨"courses", "My Courses", some ["trainer"]⟩,
   ⟨"sessions", "Training Sessions", some ["trainer"]⟩,
   ⟨"materials", "Materials", some ["trainer"]⟩,
   ⟨"grades", "Trainee Grades", some ["trainer"]⟩,
   ⟨"feedback", "Feedback", some ["trainer"]⟩,
   ⟨"courses", "My Courses", some ["trainee"]⟩,
   ⟨"schedule", "Schedule", some ["trainee"]⟩,
   ⟨"resources", "Resources", some ["trainee"]⟩,
   ⟨"grades", "Grades", some ["trainee"]⟩,
   ⟨"courses-pending", "Browse Courses", some ["pending"]⟩,
   ⟨"profile", "Profile", some ["pending"]⟩,
   ⟨"feedback", "Send Feedback", some ["trainee"]⟩]

/-- The role used for filtering: currentUser role, with a missing user or
    a falsy (empty) role treated as pending. -/
def effectiveRole (r : Option String) : String :=
  match r with
  | some s => if s = "" then "pending" else s
  | none => "pending"

/-- The filter predicate of the Sidebar: an item is visible when it has no
    roles list or its roles list holds the user role. -/
def itemVisible (role : String) (item : MenuItem) : Bool :=
  match item.roles with
  | none => true
  | some rs => rs.contains role

/-- menuItems from Sidebar: the role-gated filtering of allMenuItems. -/
def menuItems (role : String) : List MenuItem :=
  allMenuItems.filter (itemVisible role)

/-- C6: the rendered menu is exactly the sublist of allMenuItems whose
    entries have no roles list or one holding the user role, kept in
    declaration order; a missing user or missing role means role pending,
    which sees exactly Home, Browse Courses and Profile. -/
theorem sidebar_menu_spec :
    (∀ role item, item ∈ menuItems role ↔
      item ∈ allMenuItems ∧
        (item.roles = none ∨ ∃ rs, item.roles = some rs ∧ role ∈ rs)) ∧
    (∀ role, (menuItems role).Sublist allMenuItems) ∧
    effectiveRole none = "pending" ∧
    effectiveRole (some "") = "pending" ∧
    (menuItems "pending").map MenuItem.label =
      ["Home", "Browse Courses", "Profile"] := by
  refine ⟨?_, fun role => List.filter_sublist _, rfl, rfl, by rfl⟩
  intro role item
  rw [menuItems, List.mem_filter]
  constructor
  · rintro ⟨hmem, hvis⟩
    refine ⟨hmem, ?_⟩
    rw [itemVisible] at hvis
    cases hr : item.roles with
    | none => exact Or.inl rfl
    | some rs =>
      rw [hr] at hvis
      simp only at hvis
      exact Or.inr ⟨rs, rfl, by simpa using hvis⟩
  · rintro ⟨hmem, hvis⟩
    refine ⟨hmem, ?_⟩
    rw [itemVisible]
    cases hvis with
    | inl h => rw [h]
    | inr h =>
      obtain ⟨rs, hr, hin⟩ := h
      rw [hr]
      simpa using hin

/-- Backend collections touched by the management handlers. -/
inductive Coll
  | courses
  | users
  | pendingUsers
  | activityLogs
deriving DecidableEq, Repr

/-- One observable effect of a handler invocation: an attempted backend
    operation or a local report. A writeAttempt or deleteAttempt is
    counted whether the operation later resolves or rejects. -/
inductive Effect
  | writeAttempt (c : Coll)
  | deleteAttempt (c : Coll)
  | readAttempt (c : Coll)
  | authCreateAttempt
  | authUpdateEmailAttempt
  | alertShown
  | consoleLogged
deriving DecidableEq, Repr

/-- The effect trace of handleAddCourse from CourseManagement, with the
    resolution of each awaited backend call given as a flag: fieldsOk is
    the title and instructor validation, datesOk the session date
    validation (which alerts itself on failure), uidRejects the
    getInstructorUid query, addRejects the addDoc to courses, logRejects
    the addDoc of logActivity (whose inner catch only logs). A rejection
    jumps to the single catch block, which logs and alerts. -/
def handleAddCourseTrace (fieldsOk datesOk uidRejects addRejects logRejects : Bool) :
    List Effect :=
  if fieldsOk = false then [.alertShown]
  else if datesOk = false then [.alertShown]
  else if uidRejects then [.readAttempt .users, .consoleLogged, .alertShown]
  else
    [.readAttempt .users, .writeAttempt .courses] ++
      (if addRejects then [.consoleLogged, .alertShown]
       else
        [.writeAttempt .activityLogs] ++
          (if logRejects then [.consoleLogged] else []) ++ [.alertShown])

/-- The effect trace of handleAddUser from UserManagement: fieldsOk is
    the required-field check, dupRejects and dupExists the duplicate email
    query and its outcome, adminBlocked the admin-by-non-super-admin
    guard, authRejects the auth account creation, setUserRejects and
    setPendingRejects the setDoc calls to users and pendingUsers,
    logRejects the activity log write (inner catch). Every rejection
    jumps to the single catch block, which logs and alerts. -/
def handleAddUserTrace (fieldsOk dupRejects dupExists adminBlocked authRejects
    setUserRejects setPendingRejects logRejects : Bool) : List Effect :=
  if fieldsOk = false then [.alertShown]
  else
    [.readAttempt .users] ++
      (if dupRejects then [.consoleLogged, .alertShown]
       else if dupExists then [.alertShown]
       else if adminBlocked then [.alertShown]
       else
        [.authCreateAttempt] ++
          (if authRejects then [.consoleLogged, .alertShown]
           else
            [.writeAttempt .users] ++
              (if setUserRejects then [.consoleLogged, .alertShown]
               else
                [.writeAttempt .pendingUsers] ++
                  (if setPendingRejects then [.consoleLogged, .alertShown]
                   else
                    [.writeAttempt .activityLogs] ++
                      (if logRejects then [.consoleLogged] else []) ++
                      [.alertShown]))))

/-- The effect trace of handleSaveEdit from CourseManagement (edit
    course): hasEditing is the editingCourse presence check (an early
    return with no effect when it fails), instrOk the instructor name
    check, datesOk the session date validation (alerting itself),
    uidRejects the getInstructorUid query, updateRejects the updateDoc to
    courses, logRejects the activity log write (inner catch). A rejection
    jumps to the single catch block, which logs and alerts. -/
def handleEditCourseTrace (hasEditing instrOk datesOk uidRejects updateRejects
    logRejects : Bool) : List Effect :=
  if hasEditing = false then []
  else if instrOk = false then [.alertShown]
  else if datesOk = false then [.alertShown]
  else if uidRejects then [.readAttempt .users, .consoleLogged, .alertShown]
  else
    [.readAttempt .users, .writeAttempt .courses] ++
      (if updateRejects then [.consoleLogged, .alertShown]
       else
        [.writeAttempt .activityLogs] ++
          (if logRejects then [.consoleLogged] else []) ++ [.alertShown])

/-- The effect trace of handleDeleteCourse from CourseManagement:
    confirmed is the window.confirm answer (an unconfirmed prompt returns
    with no effect), deleteRejects the deleteDoc to courses, logRejects
    the activity log write (inner catch). A rejection jumps to the single
    catch block, which logs and alerts. -/
def handleDeleteCourseTrace (confirmed deleteRejects logRejects : Bool) :
    List Effect :=
  if confirmed = false then []
  else
    [.deleteAttempt .courses] ++
      (if deleteRejects then [.consoleLogged, .alertShown]
       else
        [.writeAttempt .activityLogs] ++
          (if logRejects then [.consoleLogged] else []) ++ [.alertShown])

/-- The effect trace of handleSaveEdit from UserManagement (edit user):
    hasEditing is the editingUser-and-id presence check (an early return
    with no effect), guardBlocked the admin-other-uid-non-super guard
    (alert and return, inside the try block but before any backend
    operation), updateRejects the updateDoc to users, emailUpdate whether
    the self-email-change branch runs updateEmail on the auth backend,
    emailRejects its rejection, logRejects the activity log write (inner
    catch). A rejection jumps to the single catch block, which logs and
    alerts. -/
def handleEditUserTrace (hasEditing guardBlocked updateRejects emailUpdate
    emailRejects logRejects : Bool) : List Effect :=
  if hasEditing = false then []
  else if guardBlocked then [.alertShown]
  else
    [.writeAttempt .users] ++
      (if updateRejects then [.consoleLogged, .alertShown]
       else
        (if emailUpdate then
          [.authUpdateEmailAttempt] ++
            (if emailRejects then [.consoleLogged, .alertShown]
             else
              [.writeAttempt .activityLogs] ++
                (if logRejects then [.consoleLogged] else []) ++ [.alertShown])
         else
          [.writeAttempt .activityLogs] ++
            (if logRejects then [.consoleLogged] else []) ++ [.alertShown]))

/-- The effect trace of handleDeleteUser from UserManagement: confirmed
    is the window.confirm answer, superAdminTarget the super-admin guard,
    guardBlocked the admin-non-super-or-self guard, hasId the user.id
    presence check inside the try block (an early return with no effect
    when it fails), deleteRejects the deleteDoc to users, logRejects the
    activity log write (inner catch). A rejection jumps to the single
    catch block, which logs and alerts. -/
def handleDeleteUserTrace (confirmed superAdminTarget guardBlocked hasId
    deleteRejects logRejects : Bool) : List Effect :=
  if confirmed = false then []
  else if superAdminTarget then [.alertShown]
  else if guardBlocked then [.alertShown]
  else if hasId = false then []
  else
    [.deleteAttempt .users] ++
      (if deleteRejects then [.consoleLogged, .alertShown]
       else
        [.writeAttempt .activityLogs] ++
          (if logRejects then [.consoleLogged] else []) ++ [.alertShown])

/-- C7: in all six management handlers (add, edit and delete of course
    management and of user management) the write or delete on the primary
    courses or users collection is attempted at most once per invocation
    (never retried), no invocation touches the other primary collection
    at all, and when the primary operation rejects the trace ends with
    that single attempted operation followed by exactly a console log and
    an alert: no recovery write follows. -/
theorem write_failure_no_retry_spec :
    (∀ f d u a l : Bool,
      (handleAddCourseTrace f d u a l).count (.writeAttempt .courses) ≤ 1 ∧
      (handleAddCourseTrace f d u a l).count (.writeAttempt .users) = 0 ∧
      (handleAddCourseTrace f d u a l).count (.deleteAttempt .users) = 0 ∧
      (f = true → d = true → u = false → a = true →
        handleAddCourseTrace f d u a l =
          [.readAttempt .users, .writeAttempt .courses, .consoleLogged,
            .alertShown])) ∧
    (∀ f dr de ab ar su sp l : Bool,
      (handleAddUserTrace f dr de ab ar su sp l).count
        (.writeAttempt .users) ≤ 1 ∧
      (handleAddUserTrace f dr de ab ar su sp l).count
        (.writeAttempt .courses) = 0 ∧
      (handleAddUserTrace f dr de ab ar su sp l).count
        (.deleteAttempt .courses) = 0 ∧
      (f = true → dr = false → de = false → ab = false → ar = false →
        su = true →
        handleAddUserTrace f dr de ab ar su sp l =
          [.readAttempt .users, .authCreateAttempt, .writeAttempt .users,
            .consoleLogged, .alertShown])) ∧
    (∀ h i d u ur l : Bool,
      (handleEditCourseTrace h i d u ur l).count (.writeAttempt .courses) ≤ 1 ∧
      (handleEditCourseTrace h i d u ur l).count (.writeAttempt .users) = 0 ∧
      (handleEditCourseTrace h i d u ur l).count (.deleteAttempt .users) = 0 ∧
      (h = true → i = true → d = true → u = false → ur = true →
        handleEditCourseTrace h i d u ur l =
          [.readAttempt .users, .writeAttempt .courses, .consoleLogged,
            .alertShown])) ∧
    (∀ c dr l : Bool,
      (handleDeleteCourseTrace c dr l).count (.deleteAttempt .courses) ≤ 1 ∧
      (handleDeleteCourseTrace c dr l).count (.writeAttempt .courses) = 0 ∧
      (handleDeleteCourseTrace c dr l).count (.writeAttempt .users) = 0 ∧
      (c = true → dr = true →
        handleDeleteCourseTrace c dr l =
          [.deleteAttempt .courses, .consoleLogged, .alertShown])) ∧
    (∀ h g ur eu er l : Bool,
      (handleEditUserTrace h g ur eu er l).count (.writeAttempt .users) ≤ 1 ∧
      (handleEditUserTrace h g ur eu er l).count (.writeAttempt .courses) = 0 ∧
      (handleEditUserTrace h g ur eu er l).count (.deleteAttempt .courses) = 0 ∧
      (h = true → g = false → ur = true →
        handleEditUserTrace h g ur eu er l =
          [.writeAttempt .users, .consoleLogged, .alertShown])) ∧
    (∀ c sa g hi dr l : Bool,
      (handleDeleteUserTrace c sa g hi dr l).count (.deleteAttempt .users) ≤ 1 ∧
      (handleDeleteUserTrace c sa g hi dr l).count (.writeAttempt .users) = 0 ∧
      (handleDeleteUserTrace c sa g hi dr l).count
        (.writeAttempt .courses) = 0 ∧
      (c = true → sa = false → g = false → hi = true → dr = true →
        handleDeleteUserTrace c sa g hi dr l =
          [.deleteAttempt .users, .consoleLogged, .alertShown])) := by
  refine ⟨?_, ?_, ?_, ?_, ?_, ?_⟩
  · intro f d u a l
    refine ⟨?_, ?_, ?_, ?_⟩
    · cases f <;> cases d <;> cases u <;> cases a <;> cases l <;> decide
    · cases f <;> cases d <;> cases u <;> cases a <;> cases l <;> decide
    · cases f <;> cases d <;> cases u <;> cases a <;> cases l <;> decide
    · intro h1 h2 h3 h4
      subst h1; subst h2; subst h3; subst h4
      rfl
  · intro f dr de ab ar su sp l
    refine ⟨?_, ?_, ?_, ?_⟩
    · cases f <;> cases dr <;> cases de <;> cases ab <;> cases ar <;>
        cases su <;> cases sp <;> cases l <;> decide
    · cases f <;> cases dr <;> cases de <;> cases ab <;> cases ar <;>
        cases su <;> cases sp <;> cases l <;> decide
    · cases f <;> cases dr <;> cases de <;> cases ab <;> cases ar <;>
        cases su <;> cases sp <;> cases l <;> decide
    · intro h1 h2 h3 h4 h5 h6
      subst h1; subst h2; subst h3; subst h4; subst h5; subst h6
      rfl
  · intro h i d u ur l
    refine ⟨?_, ?_, ?_, ?_⟩
    · cases h <;> cases i <;> cases d <;> cases u <;> cases ur <;>
        cases l <;> decide
    · cases h <;> cases i <;> cases d <;> cases u <;> cases ur <;>
        cases l <;> decide
    · cases h <;> cases i <;> cases d <;> cases u <;> cases ur <;>
        cases l <;> decide
    · intro h1 h2 h3 h4 h5
      subst h1; subst h2; subst h3; subst h4; subst h5
      rfl
  · intro c dr l
    refine ⟨?_, ?_, ?_, ?_⟩
    · cases c <;> cases dr <;> cases l <;> decide
    · cases c <;> cases dr <;> cases l <;> decide
    · cases c <;> cases dr <;> cases l <;> decide
    · intro h1 h2
      subst h1; subst h2
      rfl
  · intro h g ur eu er l
    refine ⟨?_, ?_, ?_, ?_⟩
    · cases h <;> cases g <;> cases ur <;> cases eu <;> cases er <;>
        cases l <;> decide
    · cases h <;> cases g <;> cases ur <;> cases eu <;> cases er <;>
        cases l <;> decide
    · cases h <;> cases g <;> cases ur <;> cases eu <;> cases er <;>
        cases l <;> decide
    · intro h1 h2 h3
      subst h1; subst h2; subst h3
      rfl
  · intro c sa g hi dr l
    refine ⟨?_, ?_, ?_, ?_⟩
    · cases c <;> cases sa <;> cases g <;> cases hi <;> cases dr <;>
        cases l <;> decide
    · cases c <;> cases sa <;> cases g <;> cases hi <;> cases dr <;>
        cases l <;> decide
    · cases c <;> cases sa <;> cases g <;> cases hi <;> cases dr <;>
        cases l <;> decide
    · intro h1 h2 h3 h4 h5
      subst h1; subst h2; subst h3; subst h4; subst h5
      rfl

/-- Witness for C7: one concrete rejecting invocation of each of the six
    handlers, each showing the single attempted primary operation
    followed by exactly a console log and an alert. -/
theorem write_failure_no_retry_spec_witness :
    handleAddCourseTrace true true false true false =
      [.readAttempt .users, .writeAttempt .courses, .consoleLogged,
        .alertShown] ∧
    handleAddUserTrace true false false false false true false false =
      [.readAttempt .users, .authCreateAttempt, .writeAttempt .users,
        .consoleLogged, .alertShown] ∧
    handleEditCourseTrace true true true false true false =
      [.readAttempt .users, .writeAttempt .courses, .consoleLogged,
        .alertShown] ∧
    handleDeleteCourseTrace true true false =
      [.deleteAttempt .courses, .consoleLogged, .alertShown] ∧
    handleEditUserTrace true false true false false false =
      [.writeAttempt .users, .consoleLogged, .alertShown] ∧
    handleDeleteUserTrace true false false true true false =
      [.deleteAttempt .users, .consoleLogged, .alertShown] := by
  refine ⟨?_, ?_, ?_, ?_, ?_, ?_⟩
  · exact (write_failure_no_retry_spec.1 true true false true false).2.2.2
      rfl rfl rfl rfl
  · exact (write_failure_no_retry_spec.2.1 true false false false false true
      false false).2.2.2 rfl rfl rfl rfl rfl rfl
  · exact (write_failure_no_retry_spec.2.2.1 true true true false true
      false).2.2.2 rfl rfl rfl rfl rfl
  · exact (write_failure_no_retry_spec.2.2.2.1 true true false).2.2.2 rfl rfl
  · exact (write_failure_no_retry_spec.2.2.2.2.1 true false true false false
      false).2.2.2 rfl rfl rfl
  · exact (write_failure_no_retry_spec.2.2.2.2.2 true false false true true
      false).2.2.2 rfl rfl rfl rfl rfl

/-- The compression loop of handleImageUpload in the Navbar: len gives
    the length of the base64 string produced by canvas.toDataURL at a
    given quality; the loop keeps a running iteration count. Quality
    arithmetic is exact rational arithmetic; at every guard evaluation of
    the source loop the IEEE double value of quality compares to 0.1 the
    same way as the exact value, so the guard outcomes coincide. The
    definition being accepted as total is the termination argument: the
    ceiling measure of quality strictly decreases at each iteration. -/
def compressLoop (len : ℚ → ℕ) (q : ℚ) (count : ℕ) : ℚ × ℕ :=
  if h : 950000 < len q ∧ 1 / 10 < q then
    compressLoop len (q - 1 / 20) (count + 1)
  else
    (q, count)
termination_by (⌈q * 20⌉).toNat
decreasing_by
  have h2 : (2 : ℤ) < ⌈q * 20⌉ := by
    rw [Int.lt_ceil]
    push_cast
    linarith [h.2]
  have h3 : (q - 1 / 20) * 20 = q * 20 - 1 := by ring
  rw [h3, Int.ceil_sub_one]
  omega

/-- The compression section of handleImageUpload: quality starts at 0.8
    and the loop runs with a zero iteration count; the result is the
    final quality and the number of iterations executed. -/
def handleImageUploadCompress (len : ℚ → ℕ) : ℚ × ℕ :=
  compressLoop len (4 / 5) 0

theorem compressLoop_count_le (len : ℚ → ℕ) (q : ℚ) (count : ℕ) :
    (compressLoop len q count).2 ≤ count + (⌈q * 20⌉ - 2).toNat := by
  induction q, count using compressLoop.induct len with
  | case1 q count h ih =>
    rw [compressLoop, dif_pos h]
    have h2 : (2 : ℤ) < ⌈q * 20⌉ := by
      rw [Int.lt_ceil]
      push_cast
      linarith [h.2]
    have h3 : (q - 1 / 20) * 20 = q * 20 - 1 := by ring
    rw [h3, Int.ceil_sub_one] at ih
    omega
  | case2 q count h =>
    rw [compressLoop, dif_neg h]
    exact Nat.le_add_right _ _

theorem compressLoop_post (len : ℚ → ℕ) (q : ℚ) (count : ℕ) :
    ¬(950000 < len (compressLoop len q count).1 ∧
      1 / 10 < (compressLoop len q count).1) := by
  induction q, count using compressLoop.induct len with
  | case1 q count h ih =>
    rw [compressLoop, dif_pos h]
    exact ih
  | case2 q count h =>
    rw [compressLoop, dif_neg h]
    exact h

/-- C10: the compression loop terminates for every image: starting from
    quality 0.8 it executes at most 14 iterations; exiting with quality
    still above 0.1 means the loop exited through the size condition and
    the string is at or below the 950000 threshold; and termination alone
    does not bound the string, as a constant length of 1000000 witnesses. -/
theorem handleImageUpload_compression_spec (len : ℚ → ℕ) :
    (handleImageUploadCompress len).2 ≤ 14 ∧
    (1 / 10 < (handleImageUploadCompress len).1 →
      len (handleImageUploadCompress len).1 ≤ 950000) ∧
    950000 <
      (fun _ : ℚ => 1000000)
        ((handleImageUploadCompress (fun _ : ℚ => 1000000)).1) := by
  refine ⟨?_, ?_, ?_⟩
  · have h := compressLoop_count_le len (4 / 5) 0
    have hceil : ⌈(4 / 5 : ℚ) * 20⌉ = 16 := by norm_num
    rw [hceil] at h
    simpa [handleImageUploadCompress] using h
  · intro hq
    have h := compressLoop_post len (4 / 5) 0
    rw [not_and_or] at h
    cases h with
    | inl h => exact le_of_not_lt (by simpa [handleImageUploadCompress] using h)
    | inr h => exact absurd hq (by simpa [handleImageUploadCompress] using h)
  · norm_num

/-- Witness for C10: for a tiny image (constant length 0) the loop exits
    at quality 0.8 with 0 iterations and the threshold is met. -/
theorem handleImageUpload_compression_spec_witness :
    (handleImageUploadCompress (fun _ : ℚ => 0)).2 ≤ 14 ∧
    (fun _ : ℚ => (0 : ℕ)) ((handleImageUploadCompress (fun _ : ℚ => 0)).1) ≤
      950000 := by
  have hres : handleImageUploadCompress (fun _ : ℚ => 0) = (4 / 5, 0) := by
    rw [handleImageUploadCompress, compressLoop]
    norm_num
  refine ⟨(handleImageUpload_compression_spec (fun _ : ℚ => 0)).1, ?_⟩
  exact (handleImageUpload_compression_spec (fun _ : ℚ => 0)).2.1
    (by rw [hres]; norm_num)

end ATMS
